import Mathlib

/-!
Shallow embedding of the share-link authentication core of this repository
(`src/api/src/services/shares.ts`, class `SharesService`): the `login` flow
(credential verification, usage counter update, token issuance, session
persistence, expired-session sweep) and the `invite` flow.

Modelling conventions:
* Database state is a `DB` value holding the `directus_shares` and
  `directus_sessions` tables as lists of records; the knex query of `login`
  becomes a `List.find?` over the shares table with the same three AND-ed
  OR-pair predicates, and the SQL `UPDATE`/`INSERT`/`DELETE` statements become
  pure state transformations returned alongside the result.
* Timestamps are integers (milliseconds since epoch); `now` is a parameter.
  The `ms`-parsed duration strings `ACCESS_TOKEN_TTL` / `REFRESH_TOKEN_TTL`
  are modelled as their already-parsed millisecond values.
* `jwt.sign` is modelled as a transparent record of everything that goes into
  the signature (payload, secret, expiry, issuer); `nanoid(64)` is modelled by
  passing the fresh random token in as a parameter.
* A JS exception escaping `login` is modelled as an `Except.error` result
  paired with the database state at the moment the exception was thrown.
  Failures of the awaited persistence calls (`update` / `insert` / `delete`)
  are injected through a `Faults` record; a triggered fault aborts the flow at
  the corresponding statement, exactly as an awaited rejection would.
-/

/-- A row of the `directus_shares` table, with the columns `login` selects. -/
structure Share where
  id : String
  role : Option String
  item : String
  collection : String
  dateStart : Option Int
  dateEnd : Option Int
  timesUsed : Int
  maxUses : Option Int
  password : Option String
  deriving DecidableEq

/-- A row of the `directus_sessions` table, with the columns `login` inserts. -/
structure Session where
  token : String
  expires : Int
  ip : Option String
  userAgent : Option String
  share : Option String
  deriving DecidableEq

/-- The persistent state `login` reads and mutates: the two tables. -/
structure DB where
  shares : List Share
  sessions : List Session
  deriving DecidableEq

/-- The caller's request context (`this.accountability`), which may be null. -/
structure Accountability where
  ip : Option String
  userAgent : Option String
  user : Option String
  deriving DecidableEq

/-- Process configuration (`env`). TTLs are the `ms`-parsed millisecond
values of the configured duration strings. -/
structure Env where
  SECRET : String
  ACCESS_TOKEN_TTL : Int
  REFRESH_TOKEN_TTL : Int
  PUBLIC_URL : String
  deriving DecidableEq

/-- The body of `login`'s request: `payload.share` and optional
`payload.password` (absent supplied password is `none`). -/
structure LoginPayload where
  share : String
  password : Option String
  deriving DecidableEq

/-- The claims placed inside the signed access token (`DirectusTokenPayload`). -/
structure DirectusTokenPayload where
  app_access : Bool
  admin_access : Bool
  role : Option String
  share : String
  share_scope_item : String
  share_scope_collection : String
  deriving DecidableEq

/-- A signed JWT, modelled transparently as everything `jwt.sign` consumes:
the payload plus secret, expiry and issuer options. -/
structure SignedToken where
  payload : DirectusTokenPayload
  secret : String
  expiresIn : Int
  issuer : String
  deriving DecidableEq

/-- The value `login` returns on success (`LoginResult`). -/
structure LoginResult where
  accessToken : SignedToken
  refreshToken : String
  expires : Int
  deriving DecidableEq

/-- The exceptions `login` can let escape: `InvalidCredentialsException`, or a
rejection of one of the awaited persistence calls. -/
inductive LoginErr where
  | invalidCredentials
  | persistence
  deriving DecidableEq

/-- Fault injection for the three awaited persistence statements of `login`
(the `update`, the session `insert`, the expired-session `delete`). A `true`
flag makes the corresponding awaited call reject. -/
structure Faults where
  updateFails : Bool
  insertFails : Bool
  deleteFails : Bool
  deriving DecidableEq

/-- The fault assignment under which every persistence call succeeds. -/
def noFaults : Faults := { updateFails := false, insertFails := false, deleteFails := false }

/-- The `date_end` OR-pair of the knex query:
`whereNull('date_end').orWhere('date_end', '>=', now)`. -/
def dateEndOk (now : Int) (s : Share) : Bool :=
  match s.dateEnd with
  | none => true
  | some d => decide (d ≥ now)

/-- The `date_start` OR-pair of the knex query:
`whereNull('date_start').orWhere('date_start', '<=', now)`. -/
def dateStartOk (now : Int) (s : Share) : Bool :=
  match s.dateStart with
  | none => true
  | some d => decide (d ≤ now)

/-- The `max_uses` OR-pair of the knex query:
`whereNull('max_uses').orWhere('max_uses', '>=', ref('times_used'))`. -/
def quotaOk (s : Share) : Bool :=
  match s.maxUses with
  | none => true
  | some m => decide (m ≥ s.timesUsed)

/-- The full WHERE clause of `login`'s select: the id equality AND-ed with the
three OR-pair predicates. -/
def shareMatches (now : Int) (sid : String) (s : Share) : Bool :=
  s.id == sid && dateEndOk now s && dateStartOk now s && quotaOk s

/-- The select of `login`: the first `directus_shares` row satisfying the
WHERE clause (`.first()`), or `none`. -/
def verifyShare (now : Int) (db : DB) (sid : String) : Option Share :=
  db.shares.find? (shareMatches now sid)

/-- Modelled from the spec: `argon2.verify` is a third-party library, not code
of this repository. Per the spec's interface for the password check, a
supplied password verifies against the stored secret iff it matches it
byte-exactly (case-sensitive), and an absent supplied password verifies
against nothing. The stored hash is modelled as the secret itself. -/
def argon2Verify (stored : String) (supplied : Option String) : Bool :=
  match supplied with
  | none => false
  | some s => s == stored

/-- The password guard of `login`:
`record.share_password && !(await argon2.verify(record.share_password, payload.password))`.
A JS-falsy stored password (null or the empty string) skips verification. -/
def passwordRejects (stored supplied : Option String) : Bool :=
  match stored with
  | none => false
  | some s => (s != "") && !(argon2Verify s supplied)

/-- The `UPDATE directus_shares SET times_used = record.times_used + 1 WHERE id
= record.id` statement: every row whose id matches the verified record gets
the counter value read at verification time plus one. -/
def bumpTimesUsed (record : Share) (shares : List Share) : List Share :=
  shares.map (fun s => if s.id == record.id then { s with timesUsed := record.timesUsed + 1 } else s)

/-- Survivor predicate of the sweep `DELETE FROM directus_sessions WHERE
expires < now`: a session survives iff its expiry is not strictly past. -/
def sessionLive (now : Int) (sess : Session) : Bool :=
  !(decide (sess.expires < now))

/-- The `DirectusTokenPayload` literal `login` builds for the verified share. -/
def mkTokenPayload (record : Share) : DirectusTokenPayload :=
  { app_access := false
    admin_access := false
    role := record.role
    share := record.id
    share_scope_item := record.item
    share_scope_collection := record.collection }

/-- The access token `login` signs: the payload, the process secret, the
access-token TTL and the fixed issuer. -/
def mkAccessToken (env : Env) (record : Share) : SignedToken :=
  { payload := mkTokenPayload record
    secret := env.SECRET
    expiresIn := env.ACCESS_TOKEN_TTL
    issuer := "directus" }

/-- The session row `login` inserts: the fresh refresh token, expiry
`now + REFRESH_TOKEN_TTL`, provenance copied from the accountability, and a
back-reference to the verified share. -/
def mkSession (env : Env) (acc : Option Accountability) (freshToken : String)
    (now : Int) (record : Share) : Session :=
  { token := freshToken
    expires := now + env.REFRESH_TOKEN_TTL
    ip := acc.bind (fun a => a.ip)
    userAgent := acc.bind (fun a => a.userAgent)
    share := some record.id }

/-- The `login` flow of `SharesService`, step for step: select with the three
predicates, throw `InvalidCredentials` on no row, password guard, `UPDATE` of
`times_used`, token signing, session `INSERT`, expired-session `DELETE`, and
the returned `LoginResult`. The returned pair is (result or escaped
exception, database state when `login` finishes or throws). -/
def login (env : Env) (acc : Option Accountability) (fl : Faults) (freshToken : String)
    (now : Int) (db : DB) (payload : LoginPayload) : Except LoginErr LoginResult × DB :=
  match verifyShare now db payload.share with
  | none => (Except.error LoginErr.invalidCredentials, db)
  | some record =>
    if passwordRejects record.password payload.password then
      (Except.error LoginErr.invalidCredentials, db)
    else if fl.updateFails then
      (Except.error LoginErr.persistence, db)
    else
      let db1 : DB := { db with shares := bumpTimesUsed record db.shares }
      if fl.insertFails then
        (Except.error LoginErr.persistence, db1)
      else
        let db2 : DB := { db1 with sessions := db1.sessions ++ [mkSession env acc freshToken now record] }
        if fl.deleteFails then
          (Except.error LoginErr.persistence, db2)
        else
          (Except.ok
            { accessToken := mkAccessToken env record
              refreshToken := freshToken
              expires := env.ACCESS_TOKEN_TTL },
           { db2 with sessions := db2.sessions.filter (sessionLive now) })

/-- The fields `invite` reads of the inviting user. -/
structure UserInfo where
  first_name : Option String
  last_name : Option String
  email : Option String
  id : String
  deriving DecidableEq

/-- The body of `invite`'s request: recipient emails and the share id. -/
structure InvitePayload where
  emails : List String
  share : String
  deriving DecidableEq

/-- The exceptions `invite` can let escape: `ForbiddenException` from the
anonymous-caller guard, or a failure of a collaborator call. -/
inductive InviteErr where
  | forbidden
  | unavailable
  deriving DecidableEq

/-- One outbound message handed to the mail collaborator; `recipient` models
the `to` field of the send call. -/
structure Mail where
  recipient : String
  subject : String
  html : String
  deriving DecidableEq

/-- Modelled from the spec: the `userName` utility (`src/api/src/utils/user-name`
is not under `src/`). The spec only requires the message to name the inviter;
the inviter's display name is derived from name fields, falling back to the
email. -/
def userName (u : UserInfo) : String :=
  match u.first_name, u.last_name with
  | some f, some l => f ++ " " ++ l
  | some f, none => f
  | none, _ =>
    match u.email with
    | some e => e
    | none => "Unknown User"

/-- The invitation message body `invite` composes: inviter name, shared
collection, and the deep link `PUBLIC_URL/admin/shared/shareId`. -/
def inviteMessage (env : Env) (inviter : UserInfo) (collection : String) (shareId : String) : String :=
  "Hello!\n\n" ++ userName inviter ++ " has invited you to view an item in " ++ collection
    ++ ".\n\n[Open](" ++ env.PUBLIC_URL ++ "/admin/shared/" ++ shareId ++ ")\n"

/-- The `invite` flow of `SharesService`: the anonymous-caller guard, the share
read (collection field), the inviting user read, the message composition, and
one mail per recipient. The external reads and the markdown renderer are
passed as collaborator functions. The returned pair is (result or escaped
exception, the mails dispatched before `invite` finished or threw). -/
def invite (env : Env) (acc : Option Accountability)
    (readShareCollection : String → Except InviteErr String)
    (readUser : String → Except InviteErr UserInfo)
    (mdRender : String → String)
    (payload : InvitePayload) : Except InviteErr Unit × List Mail :=
  match acc.bind (fun a => a.user) with
  | none => (Except.error InviteErr.forbidden, [])
  | some uid =>
    match readShareCollection payload.share with
    | Except.error e => (Except.error e, [])
    | Except.ok collection =>
      match readUser uid with
      | Except.error e => (Except.error e, [])
      | Except.ok userInfo =>
        let message := inviteMessage env userInfo collection payload.share
        (Except.ok (),
         payload.emails.map (fun email =>
          { recipient := email
            subject := userName userInfo ++ " has shared an item with you"
            html := mdRender message }))

/-! Concrete fixtures used by witnesses and counterexamples. -/

/-- A sample configuration: 15-minute access TTL, 7-day refresh TTL. -/
def envEx : Env :=
  { SECRET := "secret", ACCESS_TOKEN_TTL := 900000, REFRESH_TOKEN_TTL := 604800000
    PUBLIC_URL := "http://example.com" }

/-- An unrestricted share: no window, no quota, no password. -/
def shareOpen : Share :=
  { id := "s1", role := some "viewer", item := "it1", collection := "articles"
    dateStart := none, dateEnd := none, timesUsed := 0, maxUses := none, password := none }

/-- A share with `maxUses = 1`, `timesUsed = 0`, no password. -/
def shareQuota1 : Share := { shareOpen with id := "q1", maxUses := some 1 }

/-- A share whose stored password is the empty string (non-null, JS-falsy). -/
def shareEmptyPw : Share := { shareOpen with id := "e1", password := some "" }

/-- A share with a non-empty stored password. -/
def shareHashed : Share := { shareOpen with id := "h1", password := some "hash1" }

/-- An already-expired session (expiry 50). -/
def sessStale : Session := { token := "old", expires := 50, ip := none, userAgent := none, share := none }

/-- A session that has not expired yet (expiry 500000). -/
def sessFresh : Session := { token := "new", expires := 500000, ip := none, userAgent := none, share := none }

/-- Database holding only the unrestricted share. -/
def dbOpen : DB := { shares := [shareOpen], sessions := [] }

/-- Database holding only the quota-1 share. -/
def dbQuota : DB := { shares := [shareQuota1], sessions := [] }

/-- Database holding only the empty-string-password share. -/
def dbEmptyPw : DB := { shares := [shareEmptyPw], sessions := [] }

/-- Database holding only the hashed-password share. -/
def dbHashed : DB := { shares := [shareHashed], sessions := [] }

/-- Database with the unrestricted share and one stale plus one fresh session. -/
def dbSessions : DB := { shares := [shareOpen], sessions := [sessStale, sessFresh] }

/-- Database with no shares but one stale session. -/
def dbNoShare : DB := { shares := [], sessions := [sessStale] }

/-- The empty database. -/
def dbEmpty : DB := { shares := [], sessions := [] }

/-- The first login against the quota-1 share. -/
def loginQuotaFirst : Except LoginErr LoginResult × DB :=
  login envEx none noFaults "t1" 100 dbQuota { share := "q1", password := none }

/-- A second login against the quota-1 share, on the state the first left. -/
def loginQuotaSecond : Except LoginErr LoginResult × DB :=
  login envEx none noFaults "t2" 100 loginQuotaFirst.snd { share := "q1", password := none }

/-! Helper lemmas about the verification predicates and the `login` branches. -/

theorem dateEndOk_iff (now : Int) (s : Share) :
    dateEndOk now s = true ↔ (s.dateEnd = none ∨ ∃ d, s.dateEnd = some d ∧ d ≥ now) := by
  cases h : s.dateEnd <;> simp [dateEndOk, h]

theorem dateStartOk_iff (now : Int) (s : Share) :
    dateStartOk now s = true ↔ (s.dateStart = none ∨ ∃ d, s.dateStart = some d ∧ d ≤ now) := by
  cases h : s.dateStart <;> simp [dateStartOk, h]

theorem quotaOk_iff (s : Share) :
    quotaOk s = true ↔ (s.maxUses = none ∨ ∃ m, s.maxUses = some m ∧ m ≥ s.timesUsed) := by
  cases h : s.maxUses <;> simp [quotaOk, h]

theorem shareMatches_iff (now : Int) (sid : String) (s : Share) :
    shareMatches now sid s = true ↔
      (s.id = sid
        ∧ (s.dateEnd = none ∨ ∃ d, s.dateEnd = some d ∧ d ≥ now)
        ∧ (s.dateStart = none ∨ ∃ d, s.dateStart = some d ∧ d ≤ now)
        ∧ (s.maxUses = none ∨ ∃ m, s.maxUses = some m ∧ m ≥ s.timesUsed)) := by
  simp only [shareMatches, Bool.and_eq_true, beq_iff_eq,
    dateEndOk_iff, dateStartOk_iff, quotaOk_iff]
  tauto

theorem login_of_verify_none (env : Env) (acc : Option Accountability) (fl : Faults)
    (tok : String) (now : Int) (db : DB) (payload : LoginPayload)
    (hv : verifyShare now db payload.share = none) :
    login env acc fl tok now db payload = (Except.error LoginErr.invalidCredentials, db) := by
  simp [login, hv]

theorem login_of_reject (env : Env) (acc : Option Accountability) (fl : Faults)
    (tok : String) (now : Int) (db : DB) (payload : LoginPayload) (r : Share)
    (hv : verifyShare now db payload.share = some r)
    (hp : passwordRejects r.password payload.password = true) :
    login env acc fl tok now db payload = (Except.error LoginErr.invalidCredentials, db) := by
  simp [login, hv, hp]

theorem login_ok_state (env : Env) (acc : Option Accountability) (fl : Faults)
    (tok : String) (now : Int) (db : DB) (payload : LoginPayload) (res : LoginResult)
    (hok : (login env acc fl tok now db payload).fst = Except.ok res) :
    ∃ r, verifyShare now db payload.share = some r ∧
      res = { accessToken := mkAccessToken env r, refreshToken := tok, expires := env.ACCESS_TOKEN_TTL } ∧
      (login env acc fl tok now db payload).snd =
        { shares := bumpTimesUsed r db.shares
          sessions := (db.sessions ++ [mkSession env acc tok now r]).filter (sessionLive now) } := by
  cases hv : verifyShare now db payload.share with
  | none => rw [login_of_verify_none env acc fl tok now db payload hv] at hok; simp at hok
  | some r =>
    refine ⟨r, rfl, ?_⟩
    by_cases hp : passwordRejects r.password payload.password = true
    · rw [login_of_reject env acc fl tok now db payload r hv hp] at hok; simp at hok
    · by_cases hu : fl.updateFails = true
      · simp [login, hv, hp, hu] at hok
      · by_cases hi : fl.insertFails = true
        · simp [login, hv, hp, hu, hi] at hok
        · by_cases hd : fl.deleteFails = true
          · simp [login, hv, hp, hu, hi, hd] at hok
          · simp only [login, hv, hp, hu, hi, hd] at hok ⊢
            simp at hok
            exact ⟨hok.symm, rfl⟩

theorem login_invalid_snd (env : Env) (acc : Option Accountability) (fl : Faults)
    (tok : String) (now : Int) (db : DB) (payload : LoginPayload)
    (h : (login env acc fl tok now db payload).fst = Except.error LoginErr.invalidCredentials) :
    (login env acc fl tok now db payload).snd = db := by
  cases hv : verifyShare now db payload.share with
  | none => rw [login_of_verify_none env acc fl tok now db payload hv]
  | some r =>
    by_cases hp : passwordRejects r.password payload.password = true
    · rw [login_of_reject env acc fl tok now db payload r hv hp]
    · by_cases hu : fl.updateFails = true
      · simp [login, hv, hp, hu] at h
      · by_cases hi : fl.insertFails = true
        · simp [login, hv, hp, hu, hi] at h
        · by_cases hd : fl.deleteFails = true
          · simp [login, hv, hp, hu, hi, hd] at h
          · simp [login, hv, hp, hu, hi, hd] at h

/-! Claim theorems. -/

/-- C1: the claim says that a share with `maxUses = N` and `timesUsed = N`
fails verification, so that a `maxUses = 1` share admits exactly one login.
This theorem evaluates the code at the failing input: against the share
`{id := "q1", maxUses := 1, timesUsed := 0, password := none}` the first login
succeeds, and the second login — performed when `timesUsed = maxUses = 1` —
also succeeds, because the code's quota predicate is `max_uses >= times_used`;
the counter ends at 2, exceeding `maxUses`. -/
theorem c1_quota_off_by_one_code_eval :
    loginQuotaFirst.fst.isOk = true
      ∧ loginQuotaFirst.snd.shares = [{ shareQuota1 with timesUsed := 1 }]
      ∧ loginQuotaSecond.fst.isOk = true
      ∧ loginQuotaSecond.snd.shares = [{ shareQuota1 with timesUsed := 2 }] := by
  refine ⟨rfl, by decide, rfl, by decide⟩

/-- C2 counterexample: the claim quantifies over every share whose stored
password is non-null, but the code guards the password check with JS
truthiness of the stored value, so a share whose stored password is the
(non-null) empty string skips verification entirely: a login with no supplied
password succeeds instead of failing with `InvalidCredentials`. -/
theorem c2_empty_stored_password_counterexample :
    shareEmptyPw.password = some ""
      ∧ ((login envEx none noFaults "t" 0 dbEmptyPw { share := "e1", password := none }).fst).isOk = true := by
  exact ⟨rfl, rfl⟩

/-- C2 amended: for every share whose stored password is non-null AND
non-empty, a login with no supplied password fails with `InvalidCredentials`,
the same opaque error as every other verification failure, under any fault
assignment. -/
theorem c2_absent_password_rejected (env : Env) (acc : Option Accountability) (fl : Faults)
    (tok : String) (now : Int) (db : DB) (sid : String) (r : Share) (p : String)
    (hv : verifyShare now db sid = some r)
    (hstored : r.password = some p) (hne : p ≠ "") :
    (login env acc fl tok now db { share := sid, password := none }).fst
      = Except.error LoginErr.invalidCredentials := by
  have hp : passwordRejects r.password (none : Option String) = true := by
    rw [hstored]
    simp [passwordRejects, argon2Verify, hne]
  rw [login_of_reject env acc fl tok now db { share := sid, password := none } r hv hp]

/-- C2 witness: the amended theorem applied to the share whose stored password
is the non-empty string "hash1". -/
theorem c2_absent_password_rejected_witness :
    (login envEx none noFaults "t" 0 dbHashed { share := "h1", password := none }).fst
      = Except.error LoginErr.invalidCredentials :=
  c2_absent_password_rejected envEx none noFaults "t" 0 dbHashed "h1" shareHashed "hash1"
    (by decide) (by decide) (by decide)

/-- C3: verification accepts a share id only when the selected row has that id
and satisfies all three predicates — (dateEnd null or ≥ now), (dateStart null
or ≤ now), (maxUses null or ≥ timesUsed) — and when no row of the shares table
satisfies all three for that id, login fails with `InvalidCredentials`. -/
theorem c3_verification_predicates (now : Int) (db : DB) (sid : String) :
    (∀ r, verifyShare now db sid = some r →
        r.id = sid
          ∧ (r.dateEnd = none ∨ ∃ d, r.dateEnd = some d ∧ d ≥ now)
          ∧ (r.dateStart = none ∨ ∃ d, r.dateStart = some d ∧ d ≤ now)
          ∧ (r.maxUses = none ∨ ∃ m, r.maxUses = some m ∧ m ≥ r.timesUsed))
      ∧ (∀ env acc fl tok pw,
          (∀ s ∈ db.shares, ¬(s.id = sid
            ∧ (s.dateEnd = none ∨ ∃ d, s.dateEnd = some d ∧ d ≥ now)
            ∧ (s.dateStart = none ∨ ∃ d, s.dateStart = some d ∧ d ≤ now)
            ∧ (s.maxUses = none ∨ ∃ m, s.maxUses = some m ∧ m ≥ s.timesUsed))) →
          (login env acc fl tok now db { share := sid, password := pw }).fst
            = Except.error LoginErr.invalidCredentials) := by
  constructor
  · intro r hr
    have hm : shareMatches now sid r = true := List.find?_some hr
    exact (shareMatches_iff now sid r).mp hm
  · intro env acc fl tok pw h
    have hv : verifyShare now db sid = none := by
      unfold verifyShare
      rw [List.find?_eq_none]
      intro s hs
      cases hmatch : shareMatches now sid s with
      | false => simp
      | true => exact absurd ((shareMatches_iff now sid s).mp hmatch) (h s hs)
    rw [login_of_verify_none env acc fl tok now db { share := sid, password := pw } hv]

/-- C3 witness: on the empty database no row satisfies the predicates, and a
login against it fails with `InvalidCredentials`. -/
theorem c3_verification_predicates_witness :
    (login envEx none noFaults "t" 0 dbEmpty { share := "sX", password := none }).fst
      = Except.error LoginErr.invalidCredentials :=
  (c3_verification_predicates 0 dbEmpty "sX").2 envEx none noFaults "t" none
    (by intro s hs; simp [dbEmpty] at hs)

/-- C4 counterexample: the claim says every login attempt — including one that
fails verification — deletes every already-expired session row. In the code
the `DELETE ... WHERE expires < now` sweep sits after the session insert, so a
login that fails verification throws before reaching it: with an unknown
share id and an expired session (`expires = 50 < now = 100`) seeded, the
attempt fails and the expired session survives untouched. -/
theorem c4_failed_attempt_skips_sweep_counterexample :
    sessStale.expires < 100
      ∧ (login envEx none noFaults "t" 100 dbNoShare { share := "s1", password := none }).fst
          = Except.error LoginErr.invalidCredentials
      ∧ sessStale ∈ (login envEx none noFaults "t" 100 dbNoShare { share := "s1", password := none }).snd.sessions := by
  refine ⟨by decide, rfl, by decide⟩

/-- C4 amended: every login attempt that completes successfully deletes every
session row whose `expires` is strictly in the past, across all shares, while
seeded session rows whose `expires` has not passed survive; attempts that
fail verification leave the session table untouched (no sweep runs). -/
theorem c4_sweep_on_success (env : Env) (acc : Option Accountability) (fl : Faults)
    (tok : String) (now : Int) (db : DB) (payload : LoginPayload) (res : LoginResult)
    (sess : Session)
    (hok : (login env acc fl tok now db payload).fst = Except.ok res)
    (hmem : sess ∈ db.sessions) :
    (sess.expires < now → sess ∉ (login env acc fl tok now db payload).snd.sessions)
      ∧ (now ≤ sess.expires → sess ∈ (login env acc fl tok now db payload).snd.sessions) := by
  obtain ⟨r, _, _, hsnd⟩ := login_ok_state env acc fl tok now db payload res hok
  rw [hsnd]
  constructor
  · intro hlt hin
    have := (List.mem_filter.mp hin).2
    simp [sessionLive, hlt] at this
  · intro hle
    refine List.mem_filter.mpr ⟨List.mem_append_left _ hmem, ?_⟩
    simp [sessionLive]
    exact hle

/-- C4 witness: a successful login against a database seeded with one expired
and one live session removes the expired one and keeps the live one. -/
theorem c4_sweep_on_success_witness :
    sessStale ∉ (login envEx none noFaults "tk" 100 dbSessions { share := "s1", password := none }).snd.sessions
      ∧ sessFresh ∈ (login envEx none noFaults "tk" 100 dbSessions { share := "s1", password := none }).snd.sessions :=
  ⟨(c4_sweep_on_success envEx none noFaults "tk" 100 dbSessions { share := "s1", password := none }
      { accessToken := mkAccessToken envEx shareOpen, refreshToken := "tk", expires := 900000 }
      sessStale rfl (by decide)).1 (by decide),
   (c4_sweep_on_success envEx none noFaults "tk" 100 dbSessions { share := "s1", password := none }
      { accessToken := mkAccessToken envEx shareOpen, refreshToken := "tk", expires := 900000 }
      sessFresh rfl (by decide)).2 (by decide)⟩

/-- C5: if any persistence step after successful verification fails (the
`times_used` update, the session insert, or the expired-session delete), the
whole login attempt fails: no access token or refresh token is returned to
the caller. -/
theorem c5_post_verification_fault_no_tokens (env : Env) (acc : Option Accountability)
    (fl : Faults) (tok : String) (now : Int) (db : DB) (payload : LoginPayload)
    (h : fl.updateFails = true ∨ fl.insertFails = true ∨ fl.deleteFails = true) :
    ((login env acc fl tok now db payload).fst).isOk = false := by
  cases hres : (login env acc fl tok now db payload).fst with
  | error e => rfl
  | ok res =>
    obtain ⟨r, hv, hres2, hsnd⟩ := login_ok_state env acc fl tok now db payload res hres
    by_cases hp : passwordRejects r.password payload.password = true
    · rw [login_of_reject env acc fl tok now db payload r hv hp] at hres
      simp at hres
    · rcases h with hu | hi | hd
      · simp [login, hv, hp, hu] at hres
      · by_cases hu2 : fl.updateFails = true
        · simp [login, hv, hp, hu2] at hres
        · simp [login, hv, hp, hu2, hi] at hres
      · by_cases hu2 : fl.updateFails = true
        · simp [login, hv, hp, hu2] at hres
        · by_cases hi2 : fl.insertFails = true
          · simp [login, hv, hp, hu2, hi2] at hres
          · simp [login, hv, hp, hu2, hi2, hd] at hres

/-- C5 witness: with the session insert failing, a login that passes
verification returns no tokens. -/
theorem c5_post_verification_fault_no_tokens_witness :
    ((login envEx none { updateFails := false, insertFails := true, deleteFails := false }
        "t" 0 dbOpen { share := "s1", password := none }).fst).isOk = false :=
  c5_post_verification_fault_no_tokens envEx none
    { updateFails := false, insertFails := true, deleteFails := false }
    "t" 0 dbOpen { share := "s1", password := none } (Or.inr (Or.inl rfl))

/-- C6: every login attempt that fails verification — unknown id, a temporal
or quota predicate false, or password mismatch, i.e. every attempt ending in
`InvalidCredentials` — terminates before any mutation: the database (the
shares table with its `times_used` counters and the sessions table) is exactly
as it was before the call. -/
theorem c6_failed_verification_no_mutation (env : Env) (acc : Option Accountability)
    (fl : Faults) (tok : String) (now : Int) (db : DB) (payload : LoginPayload)
    (h : (login env acc fl tok now db payload).fst = Except.error LoginErr.invalidCredentials) :
    (login env acc fl tok now db payload).snd = db :=
  login_invalid_snd env acc fl tok now db payload h

/-- C6 witness: a login with an unknown share id leaves the database intact. -/
theorem c6_failed_verification_no_mutation_witness :
    (login envEx none noFaults "t" 0 dbOpen { share := "zz", password := none }).snd = dbOpen :=
  c6_failed_verification_no_mutation envEx none noFaults "t" 0 dbOpen
    { share := "zz", password := none } rfl

/-- C7: for every successful login, the verified share's row gets `times_used`
set to the value read at verification time plus one (never double-counted),
and exactly one new session row is appended with `expires = now +
REFRESH_TOKEN_TTL`, `share` = the verified share's id, and ip/userAgent
copied from the caller's accountability (the refresh-token TTL is
nonnegative, so the sweep does not remove the fresh row). -/
theorem c7_success_increments_and_creates_session (env : Env) (acc : Option Accountability)
    (fl : Faults) (tok : String) (now : Int) (db : DB) (sid : String) (pw : Option String)
    (res : LoginResult) (r : Share)
    (hv : verifyShare now db sid = some r)
    (hok : (login env acc fl tok now db { share := sid, password := pw }).fst = Except.ok res)
    (httl : 0 ≤ env.REFRESH_TOKEN_TTL) :
    ((login env acc fl tok now db { share := sid, password := pw }).snd).shares
        = db.shares.map (fun s => if s.id = r.id then { s with timesUsed := r.timesUsed + 1 } else s)
      ∧ ((login env acc fl tok now db { share := sid, password := pw }).snd).sessions
        = db.sessions.filter (sessionLive now)
            ++ [{ token := tok, expires := now + env.REFRESH_TOKEN_TTL
                  ip := acc.bind (fun a => a.ip), userAgent := acc.bind (fun a => a.userAgent)
                  share := some r.id }] := by
  obtain ⟨r2, hv2, _, hsnd⟩ :=
    login_ok_state env acc fl tok now db { share := sid, password := pw } res hok
  rw [hv] at hv2
  cases hv2
  rw [hsnd]
  constructor
  · show bumpTimesUsed r db.shares = _
    unfold bumpTimesUsed
    apply List.map_congr_left
    intro s _
    by_cases h : s.id = r.id <;> simp [h]
  · show List.filter (sessionLive now) (db.sessions ++ [mkSession env acc tok now r]) = _
    rw [List.filter_append]
    have hlive : ∀ x : Session, x.expires = now + env.REFRESH_TOKEN_TTL → sessionLive now x = true := by
      intro x hx
      simp [sessionLive, hx]
      omega
    simp [mkSession, hlive]

/-- C7 witness: a successful login against the database with one stale and one
fresh session, at `now = 100`, yields exactly the incremented share row and
the surviving sessions plus the one new session row. -/
theorem c7_success_increments_and_creates_session_witness :
    ((login envEx none noFaults "tk" 100 dbSessions { share := "s1", password := none }).snd).shares
        = dbSessions.shares.map (fun s => if s.id = shareOpen.id then { s with timesUsed := shareOpen.timesUsed + 1 } else s)
      ∧ ((login envEx none noFaults "tk" 100 dbSessions { share := "s1", password := none }).snd).sessions
        = dbSessions.sessions.filter (sessionLive 100)
            ++ [{ token := "tk", expires := 100 + envEx.REFRESH_TOKEN_TTL
                  ip := none, userAgent := none, share := some shareOpen.id }] :=
  c7_success_increments_and_creates_session envEx none noFaults "tk" 100 dbSessions "s1" none
    { accessToken := mkAccessToken envEx shareOpen, refreshToken := "tk", expires := 900000 }
    shareOpen rfl rfl (by decide)

/-- C8: for every share whose stored password is null, verification succeeds
independent of any supplied password value (including the empty string and no
password at all): the login never fails with `InvalidCredentials`, and under
a fault-free run it returns tokens. -/
theorem c8_null_password_ignores_supplied (env : Env) (acc : Option Accountability)
    (fl : Faults) (tok : String) (now : Int) (db : DB) (sid : String) (pw : Option String)
    (r : Share)
    (hv : verifyShare now db sid = some r)
    (hnull : r.password = none) :
    ((login env acc fl tok now db { share := sid, password := pw }).fst
        ≠ Except.error LoginErr.invalidCredentials)
      ∧ ((login env acc noFaults tok now db { share := sid, password := pw }).fst).isOk = true := by
  have hrej : passwordRejects r.password pw = false := by rw [hnull]; rfl
  constructor
  · by_cases hu : fl.updateFails = true
    · simp [login, hv, hrej, hu]
    · by_cases hi : fl.insertFails = true
      · simp [login, hv, hrej, hu, hi]
      · by_cases hd : fl.deleteFails = true
        · simp [login, hv, hrej, hu, hi, hd]
        · simp [login, hv, hrej, hu, hi, hd]
  · simp [login, hv, hrej, noFaults, Except.isOk, Except.toBool]

/-- C8 witness: the passwordless open share accepts a login that supplies the
empty-string password. -/
theorem c8_null_password_ignores_supplied_witness :
    ((login envEx none noFaults "t" 0 dbOpen { share := "s1", password := some "" }).fst).isOk = true :=
  (c8_null_password_ignores_supplied envEx none noFaults "t" 0 dbOpen "s1" (some "")
    shareOpen rfl rfl).2

/-- C9: every call to `invite` by an anonymous caller (no accountability, or an
accountability without a user identity) fails with `Forbidden`, and no mail is
dispatched to any recipient. -/
theorem c9_anonymous_invite_forbidden (env : Env) (acc : Option Accountability)
    (readShareCollection : String → Except InviteErr String)
    (readUser : String → Except InviteErr UserInfo)
    (mdRender : String → String) (payload : InvitePayload)
    (h : acc.bind (fun a => a.user) = none) :
    invite env acc readShareCollection readUser mdRender payload
      = (Except.error InviteErr.forbidden, ([] : List Mail)) := by
  simp [invite, h]

/-- C9 witness: an invite with no accountability at all fails with `Forbidden`
and dispatches nothing. -/
theorem c9_anonymous_invite_forbidden_witness :
    invite envEx none (fun _ => Except.ok "articles")
      (fun _ => Except.ok { first_name := none, last_name := none, email := none, id := "u1" })
      id { emails := ["a@example.com"], share := "s1" }
      = (Except.error InviteErr.forbidden, ([] : List Mail)) :=
  c9_anonymous_invite_forbidden envEx none (fun _ => Except.ok "articles")
    (fun _ => Except.ok { first_name := none, last_name := none, email := none, id := "u1" })
    id { emails := ["a@example.com"], share := "s1" } rfl

/-- C10: for every successful login, the only change to the shares table is to
the `times_used` column of rows whose id matched verification: the table keeps
its length, every row with a different id survives unchanged, and every row of
the resulting table agrees with a row of the original table on every column
other than `times_used` (id, role, item, collection, date_start, date_end,
max_uses, password). -/
theorem c10_success_shares_frame (env : Env) (acc : Option Accountability)
    (fl : Faults) (tok : String) (now : Int) (db : DB) (sid : String) (pw : Option String)
    (res : LoginResult) (r : Share)
    (hv : verifyShare now db sid = some r)
    (hok : (login env acc fl tok now db { share := sid, password := pw }).fst = Except.ok res) :
    ((login env acc fl tok now db { share := sid, password := pw }).snd).shares.length
        = db.shares.length
      ∧ (∀ s ∈ db.shares, s.id ≠ r.id →
          s ∈ ((login env acc fl tok now db { share := sid, password := pw }).snd).shares)
      ∧ (∀ t ∈ ((login env acc fl tok now db { share := sid, password := pw }).snd).shares,
          ∃ s, s ∈ db.shares ∧ t.id = s.id ∧ t.role = s.role ∧ t.item = s.item
            ∧ t.collection = s.collection ∧ t.dateStart = s.dateStart ∧ t.dateEnd = s.dateEnd
            ∧ t.maxUses = s.maxUses ∧ t.password = s.password) := by
  obtain ⟨r2, hv2, _, hsnd⟩ :=
    login_ok_state env acc fl tok now db { share := sid, password := pw } res hok
  rw [hv] at hv2
  cases hv2
  rw [hsnd]
  refine ⟨?_, ?_, ?_⟩
  · show (bumpTimesUsed r db.shares).length = db.shares.length
    unfold bumpTimesUsed
    exact List.length_map db.shares _
  · intro s hs hne
    show s ∈ bumpTimesUsed r db.shares
    unfold bumpTimesUsed
    refine List.mem_map.mpr ⟨s, hs, ?_⟩
    simp [hne]
  · intro t ht
    have ht2 : t ∈ bumpTimesUsed r db.shares := ht
    unfold bumpTimesUsed at ht2
    obtain ⟨s, hs, hfs⟩ := List.mem_map.mp ht2
    refine ⟨s, hs, ?_⟩
    rw [← hfs]
    by_cases h : s.id = r.id <;> simp [h]

/-- C10 witness: the frame conjunct applied to a successful login against the
open share. -/
theorem c10_success_shares_frame_witness :
    ((login envEx none noFaults "t" 0 dbOpen { share := "s1", password := none }).snd).shares.length
      = dbOpen.shares.length :=
  (c10_success_shares_frame envEx none noFaults "t" 0 dbOpen "s1" none
    { accessToken := mkAccessToken envEx shareOpen, refreshToken := "t", expires := 900000 }
    shareOpen rfl rfl).1
